import Mathlib

/-
Verification development for the queue monitoring engine of this repository
(shallow embedding of src/scripts/gps_monitor.py).

Modelling conventions:
  - Python dicts keyed by strings are embedded as association lists
    (List (String × α)) with lookup (dget) and assignment (dset) mirroring
    dict semantics: at most one binding per key is ever produced, assignment
    replaces in place.
  - time.time() values are passed explicitly as an Int parameter (now);
    machine floats appear in the source only in two comparisons,
    messages_ready < threshold * 0.3 and core_healthy / total_core < 0.5.
    Both are embedded as the exact integer comparisons
    10 * messages_ready < 3 * threshold and 2 * core_healthy < total_core,
    which coincide with the double-precision comparisons for the integer
    magnitudes involved (the products and quotients round to within far less
    than the distance to the nearest integer boundary).
  - Notification payloads (Discord message dictionaries) are abstracted to
    the fields the claims are about: the alert_type string, the cooldown key
    and, for recovery notifications, the queue, the elapsed time and the
    original alert type. Description strings and the categorize_queue_status
    trend text are elided: no claim is about the text.
  - re.match against the hard coded discovery and category patterns is
    embedded as the corresponding case insensitive startsWith / endsWith
    tests on the lowered string.
-/

/-- Assoc-list lookup, mirroring Python dict access d.get(k). -/
def dget {α : Type} (m : List (String × α)) (k : String) : Option α :=
  match m with
  | [] => none
  | (k', v) :: rest => if k' = k then some v else dget rest k

/-- Assoc-list assignment, mirroring Python dict assignment d[k] = v:
replaces the existing binding in place, appends when absent. -/
def dset {α : Type} (m : List (String × α)) (k : String) (v : α) :
    List (String × α) :=
  match m with
  | [] => [(k, v)]
  | (k', v') :: rest => if k' = k then (k, v) :: rest else (k', v') :: dset rest k v

/-- Per-queue thresholds dict: each field is an Option because the JSON
object may omit the key (validate_configuration checks presence). -/
structure ThresholdDict where
  high_backlog : Option Int
  critical_lag_seconds : Option Int
  no_consumers_alert : Option Bool
deriving Repr, DecidableEq

/-- The empty thresholds dict (Python literal {}). -/
def emptyThresholds : ThresholdDict :=
  { high_backlog := none, critical_lag_seconds := none, no_consumers_alert := none }

/-- One entry of config[queue_monitoring][queues]. -/
structure QueueCfg where
  category : Option String
  thresholds : Option ThresholdDict
deriving Repr, DecidableEq

/-- The queue_monitoring section of the configuration file. -/
structure QMSection where
  queues : Option (List (String × QueueCfg))
deriving Repr, DecidableEq

/-- The loaded configuration JSON object. -/
structure Config where
  queue_monitoring : Option QMSection
deriving Repr, DecidableEq

/-- AlertRecoveryTracker record for one queue:
{type, timestamp, resolved} as stored by track_alert. -/
structure AlertRecord where
  type : String
  timestamp : Int
  resolved : Bool
deriving Repr, DecidableEq

/-- The fields of a RabbitMQ queue snapshot the alerting logic reads
(queue_data.get with default 0). -/
structure QueueData where
  messages_ready : Int
  consumers : Int
deriving Repr, DecidableEq

/-- The mutable state of ProductionGPSMonitor that the claims are about
(connection settings, loggers and I/O handles are omitted). -/
structure MState where
  config : Config
  target_queues : List String
  core_queues : List String
  support_queues : List String
  queue_thresholds : List (String × ThresholdDict)
  last_alert_time : List (String × Int)
  active_alerts : List (String × AlertRecord)
  shutdown_notification_sent : Bool
  queue_discovery_enabled : Bool
  discovered_queues : List String
  alert_cooldown : Int
deriving Repr, DecidableEq

/-- config.get(queue_monitoring, {}).get(queues, {}) — the queues dict of a
configuration, empty when either level is missing. -/
def queues_of_config (cfg : Config) : List (String × QueueCfg) :=
  ((cfg.queue_monitoring.bind (fun qm => qm.queues)).getD [])

/-- ProductionGPSMonitor.parse_queue_configuration: rebuilds target_queues,
core_queues, support_queues and queue_thresholds from self.config. -/
def parse_queue_configuration (st : MState) : MState :=
  let qs := queues_of_config st.config
  { st with
    target_queues := qs.map (fun p => p.1)
    core_queues := (qs.filter (fun p => (p.2.category.getD ("SUPPORT")) == "CORE")).map (fun p => p.1)
    support_queues := (qs.filter (fun p => !((p.2.category.getD ("SUPPORT")) == "CORE"))).map (fun p => p.1)
    queue_thresholds := qs.foldl (fun m p => dset m p.1 (p.2.thresholds.getD emptyThresholds)) [] }

/-- Validation errors for a single queue entry
(ProductionGPSMonitor.validate_configuration, per-queue loop). -/
def queue_config_errors (p : String × QueueCfg) : List String :=
  (if p.2.category.isNone then [("missing category")] else []) ++
  (if !(["CORE", "SUPPORT"].contains (p.2.category.getD (""))) then [("invalid category")] else []) ++
  (match p.2.thresholds with
   | none => [("missing thresholds")]
   | some td =>
     (if td.high_backlog.isNone then [("missing threshold high_backlog")] else []) ++
     (if td.critical_lag_seconds.isNone then [("missing threshold critical_lag_seconds")] else []) ++
     (if td.no_consumers_alert.isNone then [("missing threshold no_consumers_alert")] else []))

/-- ProductionGPSMonitor.validate_configuration: ok when the structure and
every queue entry are well formed; error models the raised ValueError, or
the KeyError raised by the direct subscript when a section is missing. -/
def validate_configuration (cfg : Config) : Except String Unit :=
  let e0 := if cfg.queue_monitoring.isNone then [("missing queue_monitoring section")] else []
  let e1 := e0 ++ (if (cfg.queue_monitoring.bind (fun qm => qm.queues)).isNone then [("missing queues section")] else [])
  match cfg.queue_monitoring with
  | none => Except.error ("KeyError: queue_monitoring")
  | some qm =>
    match qm.queues with
    | none => Except.error ("KeyError: queues")
    | some qs =>
      let errs := e1 ++ qs.foldl (fun acc p => acc ++ queue_config_errors p) []
      if errs.isEmpty then Except.ok () else Except.error ("Configuration validation failed")

/-- ProductionGPSMonitor.load_configuration after a successful json.load of
newCfg: stores the config, parses it into the working variables, then
validates. The Bool is false when validation raised — note the working
variables have already been overwritten at that point, exactly as in the
source (parse runs before validate). -/
def load_configuration (st : MState) (newCfg : Config) : MState × Bool :=
  let st1 := parse_queue_configuration { st with config := newCfg }
  match validate_configuration st1.config with
  | Except.ok _ => (st1, true)
  | Except.error _ => (st1, false)

/-- ProductionGPSMonitor.reload_configuration: newCfg is none when reading or
json-decoding the file raises (nothing mutated yet, error caught and logged);
some cfg models a successfully decoded file. Returns the new state and the
alert_type list of notifications sent. -/
def reload_configuration (st : MState) (newCfg : Option Config) :
    MState × List String :=
  match newCfg with
  | none => (st, [])
  | some cfg =>
    let old_targets := st.target_queues
    let old_core := st.core_queues
    let r := load_configuration st cfg
    if !r.2 then (r.1, [])
    else
      let st2 := r.1
      let added := st2.target_queues.filter (fun q => !old_targets.contains q)
      let removed := old_targets.filter (fun q => !st2.target_queues.contains q)
      let inter := old_targets.filter (fun q => st2.target_queues.contains q)
      let cat_changed := inter.filter (fun q => (old_core.contains q) != (st2.core_queues.contains q))
      if added.isEmpty && removed.isEmpty && cat_changed.isEmpty then (st2, [])
      else (st2, [("configuration_change")])

/-- ProductionGPSMonitor.get_queue_threshold specialised to the integer
threshold keys; ty is the threshold_type string of the call site. -/
def get_queue_threshold (st : MState) (q : String) (ty : String) (default : Int) : Int :=
  (((dget st.queue_thresholds q).bind (fun td =>
      if ty == "high_backlog" then td.high_backlog
      else if ty == "critical_lag_seconds" then td.critical_lag_seconds
      else none)).getD default)

/-- ProductionGPSMonitor.should_alert_no_consumers. -/
def should_alert_no_consumers (st : MState) (q : String) : Bool :=
  (((dget st.queue_thresholds q).bind (fun td => td.no_consumers_alert)).getD false)

/-- ProductionGPSMonitor.is_core_queue. -/
def is_core_queue (st : MState) (q : String) : Bool :=
  st.core_queues.contains q

/-- ProductionGPSMonitor.should_send_alert: the cooldown gate. Returns the
decision and the updated last_alert_time map. -/
def should_send_alert (last : List (String × Int)) (alert_key : String)
    (now cooldown : Int) : Bool × List (String × Int) :=
  match dget last alert_key with
  | none => (true, dset last alert_key now)
  | some t => if now - t > cooldown then (true, dset last alert_key now) else (false, last)

/-- N consecutive monitoring cycles in which one alert condition holds every
cycle: the gate should_send_alert is consulted for the same key at times
t, t + interval, t + 2 * interval, ...; returns how many times it permitted
the notification. -/
def run_alert_cycles (alert_key : String) (last : List (String × Int))
    (t : Int) (interval cooldown : Nat) : Nat → Nat
  | 0 => 0
  | Nat.succ n =>
    let r := should_send_alert last alert_key t (cooldown : Int)
    (if r.1 then 1 else 0) + run_alert_cycles alert_key r.2 (t + (interval : Int)) interval cooldown n

/-- AlertRecoveryTracker.track_alert: records (overwriting any previous
record for the queue, whatever its alert type) that an alert was sent. -/
def track_alert (st : MState) (queue_name alert_type : String) (now : Int) : MState :=
  { st with
    active_alerts :=
      dset st.active_alerts queue_name
        { type := alert_type, timestamp := now, resolved := false } }

/-- A recovery notification: (queue, recovery_time, original alert type)
as passed to send_recovery_alert. -/
def RecoveryNote : Type := String × Int × String

/-- AlertRecoveryTracker.check_recovery: returns whether the queue just
recovered, the updated state, and the recovery notifications sent.
The source compares messages_ready < threshold * 0.3 on doubles; this is
embedded as the exact comparison 10 * messages_ready < 3 * threshold (see
the header note). -/
def check_recovery (st : MState) (queue_name : String) (qd : QueueData)
    (now : Int) : Bool × MState × List RecoveryNote :=
  match dget st.active_alerts queue_name with
  | none => (false, st, [])
  | some rec =>
    if rec.resolved then (false, st, [])
    else
      let threshold := get_queue_threshold st queue_name ("high_backlog") 1000
      let is_recovered :=
        10 * qd.messages_ready < 3 * threshold && qd.consumers > 0 && qd.messages_ready < 50
      if is_recovered then
        (true,
         { st with
           active_alerts :=
             dset st.active_alerts queue_name { rec with resolved := true } },
         [(queue_name, now - rec.timestamp, rec.type)])
      else (false, st, [])

/-- ProductionGPSMonitor.get_queue_status_icon. -/
def get_queue_status_icon (st : MState) (qd : QueueData) (queue_name : String) : String :=
  let high_backlog_threshold := get_queue_threshold st queue_name ("high_backlog") 1000
  if qd.consumers == 0 && qd.messages_ready > 0 then ("CRITICAL")
  else if qd.messages_ready > high_backlog_threshold then ("WARNING")
  else ("HEALTHY")

/-- The CORE-healthy counter accumulated by collect_metrics over the fetched
snapshots: queues whose category is CORE and whose status icon is HEALTHY. -/
def collect_core_healthy (st : MState) (snaps : List (String × QueueData)) : Nat :=
  (snaps.filter (fun p =>
    is_core_queue st p.1 && get_queue_status_icon st p.2 p.1 == "HEALTHY")).length

/-- Modelled from the words of claim C4 (and spec section 4.3), for
comparison with the source: CORE queues counted healthy when
consumers > 0 and messages_ready at most the high_backlog threshold. -/
def claim_core_healthy (st : MState) (snaps : List (String × QueueData)) : Nat :=
  (snaps.filter (fun p =>
    is_core_queue st p.1 && p.2.consumers > 0 &&
      p.2.messages_ready ≤ get_queue_threshold st p.1 ("high_backlog") 1000)).length

/-- ProductionGPSMonitor.check_system_alerts: system_backlog then
system_failure, each behind its cooldown gate. Returns the updated state and
the (alert_key, alert_type) pairs of the notifications sent. The source
compares core_healthy / total_core < 0.5 on doubles; embedded as the exact
comparison 2 * core_healthy < total_core (see the header note). -/
def check_system_alerts (st : MState) (now : Int) (total_backlog : Int)
    (core_healthy total_core : Nat) : MState × List (String × String) :=
  let s1 :=
    if total_backlog > 10000 then
      let r := should_send_alert st.last_alert_time ("system_backlog") now st.alert_cooldown
      ({ st with last_alert_time := r.2 },
       if r.1 then [(("system_backlog"), ("system_backlog"))] else [])
    else (st, [])
  let s2 :=
    if 0 < total_core ∧ 2 * core_healthy < total_core then
      let r := should_send_alert s1.1.last_alert_time ("critical_system_failure") now s1.1.alert_cooldown
      ({ s1.1 with last_alert_time := r.2 },
       if r.1 then [(("critical_system_failure"), ("system_failure"))] else [])
    else (s1.1, [])
  (s2.1, s1.2 ++ s2.2)

/-- ProductionGPSMonitor.check_queue_alerts: recovery check, then the three
per-queue alert conditions, each behind its cooldown gate and tracked by the
recovery tracker when sent. Returns the updated state, the alert_type list of
the notifications sent, and the recovery notifications. -/
def check_queue_alerts (st : MState) (queue_name : String) (qd : QueueData)
    (now : Int) : MState × List String × List RecoveryNote :=
  let high_backlog_threshold := get_queue_threshold st queue_name ("high_backlog") 1000
  let should_alert_consumers := should_alert_no_consumers st queue_name
  let rc := check_recovery st queue_name qd now
  let st0 := rc.2.1
  let s1 :=
    if qd.messages_ready > high_backlog_threshold then
      let r := should_send_alert st0.last_alert_time (("backlog_") ++ queue_name) now st0.alert_cooldown
      let st' := { st0 with last_alert_time := r.2 }
      if r.1 then (track_alert st' queue_name ("queue_backlog") now, [("queue_backlog")])
      else (st', [])
    else (st0, [])
  let s2 :=
    if should_alert_consumers && qd.consumers == 0 && qd.messages_ready > 0 then
      let r := should_send_alert s1.1.last_alert_time (("no_consumers_") ++ queue_name) now s1.1.alert_cooldown
      let st' := { s1.1 with last_alert_time := r.2 }
      if r.1 then (track_alert st' queue_name ("no_consumers") now, [("no_consumers")])
      else (st', [])
    else (s1.1, [])
  let s3 :=
    if qd.messages_ready == 0 && qd.consumers == 0 then
      let r := should_send_alert s2.1.last_alert_time (("stalled_") ++ queue_name) now s2.1.alert_cooldown
      let st' := { s2.1 with last_alert_time := r.2 }
      if r.1 then (track_alert st' queue_name ("stalled_queue") now, [("stalled_queue")])
      else (st', [])
    else (s2.1, [])
  (s3.1, s1.2 ++ s2.2 ++ s3.2, rc.2.2)

/-- Whether the first character list leads the second (an exact leading
segment test on characters). -/
def leads : List Char → List Char → Bool
  | [], _ => true
  | _ :: _, [] => false
  | a :: as, b :: bs => a == b && leads as bs

/-- The characters of a string, lower cased (the effect of re.IGNORECASE on
the ASCII patterns below). -/
def lower_chars (s : String) : List Char :=
  s.data.map Char.toLower

/-- Case insensitive test that pat begins s (re.match of an anchored literal
pattern followed by a dot star). -/
def starts_ci (s pat : String) : Bool :=
  leads pat.data (lower_chars s)

/-- Case insensitive test that pat ends s (re.match of dot star then the
literal then the end anchor). -/
def ends_ci (s pat : String) : Bool :=
  leads pat.data.reverse (lower_chars s).reverse

/-- ProductionGPSMonitor.categorize_queue_by_pattern: the CORE naming
patterns, case insensitive, embedded per the header note. -/
def categorize_queue_by_pattern (queue_name : String) : String :=
  if (starts_ci queue_name ("gps_queue") && !(starts_ci queue_name ("gps_queue_history"))) ||
     starts_ci queue_name ("current_position_queue") ||
     starts_ci queue_name ("bus_tracking_queue") ||
     starts_ci queue_name ("pis_queue") then ("CORE")
  else ("SUPPORT")

/-- The auto-discovery patterns of get_matching_server_queues, case
insensitive, embedded per the header note. -/
def matches_discovery_pattern (queue_name : String) : Bool :=
  starts_ci queue_name ("gps_queue") || ends_ci queue_name ("_position_queue") ||
  starts_ci queue_name ("bus_tracking") || starts_ci queue_name ("pis_queue")

/-- The default thresholds register_new_queues assigns to a discovered
queue of the given category. -/
def default_discovered_thresholds (category : String) : ThresholdDict :=
  { high_backlog := some 1000
    critical_lag_seconds := some 60
    no_consumers_alert := some (category == "CORE") }

/-- One iteration of the register_new_queues loop body. -/
def register_one (st : MState) (queue_name : String) : MState :=
  let category := categorize_queue_by_pattern queue_name
  let st1 :=
    if category == "CORE" then { st with core_queues := st.core_queues ++ [queue_name] }
    else { st with support_queues := st.support_queues ++ [queue_name] }
  let st2 :=
    if st1.target_queues.contains queue_name then st1
    else { st1 with target_queues := st1.target_queues ++ [queue_name] }
  { st2 with
    queue_thresholds :=
      dset st2.queue_thresholds queue_name (default_discovered_thresholds category) }

/-- ProductionGPSMonitor.register_new_queues. -/
def register_new_queues (st : MState) (new_queues : List String) : MState :=
  new_queues.foldl register_one st

/-- ProductionGPSMonitor.get_matching_server_queues: server is none when the
management API request raises (fallback to the configured queues), otherwise
the names of all live queues. The Python set union is embedded as the
configured names followed by the pattern matches not already among them. -/
def get_matching_server_queues (st : MState) (server : Option (List String)) :
    List String :=
  match server with
  | none => st.target_queues
  | some all_queues =>
    st.target_queues ++
      ((all_queues.filter matches_discovery_pattern).filter
        (fun q => !st.target_queues.contains q)).dedup

/-- ProductionGPSMonitor.discover_and_monitor_queues: returns the monitored
set, the updated state, and the alert_type list of notifications sent. -/
def discover_and_monitor_queues (st : MState) (server : Option (List String)) :
    List String × MState × List String :=
  if !st.queue_discovery_enabled then (st.target_queues, st, [])
  else
    let server_queues := get_matching_server_queues st server
    let new_queues := server_queues.filter (fun q => !st.discovered_queues.contains q)
    if new_queues.isEmpty then
      (server_queues, { st with discovered_queues := server_queues }, [])
    else
      let st1 := register_new_queues st new_queues
      (server_queues,
       { st1 with discovered_queues := server_queues },
       [("queue_discovery")])

/-- ProductionGPSMonitor.send_shutdown_notification: returns the updated
state and the alert_type list of notifications sent. -/
def send_shutdown_notification (st : MState) : MState × List String :=
  if st.shutdown_notification_sent then (st, [])
  else ({ st with shutdown_notification_sent := true }, [("system_shutdown")])

/-- Repeated invocations of send_shutdown_notification (repeated shutdown
signals or cleanup): the final state and the total number of shutdown
notifications sent. -/
def repeat_shutdown (st : MState) : Nat → MState × Nat
  | 0 => (st, 0)
  | Nat.succ n =>
    let r := send_shutdown_notification st
    let rest := repeat_shutdown r.1 n
    (rest.1, r.2.length + rest.2)

/-! Concrete fixtures used by witnesses and counterexamples. -/

/-- A fully populated thresholds dict with high_backlog 100. -/
def tdA : ThresholdDict :=
  { high_backlog := some 100, critical_lag_seconds := some 60, no_consumers_alert := some true }

/-- A valid configuration with one CORE queue a. -/
def cfgA : Config :=
  { queue_monitoring := some
      { queues := some [(("a"), { category := some ("CORE"), thresholds := some tdA })] } }

/-- An invalid configuration: queue b has a category but no thresholds key,
so validate_configuration rejects it. -/
def cfgBad : Config :=
  { queue_monitoring := some
      { queues := some [(("b"), { category := some ("CORE"), thresholds := none })] } }

/-- A monitor state as produced by loading cfgA, with discovery disabled
(the default) and a five minute cooldown. -/
def stA : MState :=
  { config := cfgA
    target_queues := [("a")]
    core_queues := [("a")]
    support_queues := []
    queue_thresholds := [(("a"), tdA)]
    last_alert_time := []
    active_alerts := []
    shutdown_notification_sent := false
    queue_discovery_enabled := false
    discovered_queues := []
    alert_cooldown := 300 }

/-- The tracked, unresolved alert record used by the recovery witnesses. -/
def recA : AlertRecord :=
  { type := ("queue_backlog"), timestamp := 100, resolved := false }

/-- stA after a queue_backlog alert for queue a was tracked. -/
def stRec : MState :=
  { stA with active_alerts := [(("a"), recA)] }

/-- A state whose configured queue gps_queue_main has custom thresholds,
used to show registration overwrites them. -/
def stDisc : MState :=
  { stA with
    target_queues := [("gps_queue_main")]
    queue_thresholds := [(("gps_queue_main"), tdA)] }

/-- A snapshot with no ready messages and no consumers. -/
def snap00 : QueueData := { messages_ready := 0, consumers := 0 }

/-! Association list helper lemmas. -/

theorem dget_dset_self {α : Type} (m : List (String × α)) (k : String) (v : α) :
    dget (dset m k v) k = some v := by
  induction m with
  | nil => simp [dget, dset]
  | cons p rest ih =>
    obtain ⟨k', v'⟩ := p
    by_cases h : k' = k
    · simp [dset, dget, h]
    · simp [dset, dget, h, ih]

theorem dget_dset_ne {α : Type} (m : List (String × α)) (k k' : String) (v : α)
    (hne : k' ≠ k) : dget (dset m k v) k' = dget m k' := by
  induction m with
  | nil => simp [dget, dset, Ne.symm hne]
  | cons p rest ih =>
    obtain ⟨k0, v0⟩ := p
    by_cases h : k0 = k
    · subst h
      simp [dset, dget, Ne.symm hne]
    · by_cases h' : k0 = k'
      · subst h'
        simp [dset, dget, h, hne]
      · simp [dset, dget, h, h', ih]

theorem dset_dset {α : Type} (m : List (String × α)) (k : String) (v1 v2 : α) :
    dset (dset m k v1) k v2 = dset m k v2 := by
  induction m with
  | nil => simp [dset]
  | cons p rest ih =>
    obtain ⟨k0, v0⟩ := p
    by_cases h : k0 = k
    · simp [dset, h]
    · simp [dset, h, ih]

/-- The cooldown gate decision depends on the map only through the key's
entry. -/
theorem should_send_alert_congr (m1 m2 : List (String × Int)) (key : String)
    (now cooldown : Int) (h : dget m1 key = dget m2 key) :
    (should_send_alert m1 key now cooldown).1 = (should_send_alert m2 key now cooldown).1 := by
  unfold should_send_alert
  rw [h]
  cases dget m2 key with
  | none => rfl
  | some t => by_cases hc : now - t > cooldown <;> simp [hc]

/-- Claim C10: should_send_alert returns True on the first call for a key and
records the current time; on later calls it returns True exactly when
strictly more than the cooldown has elapsed since the recorded time, updating
the recorded time exactly when it returns True; a call at exactly the
cooldown boundary returns False and leaves everything unchanged. -/
theorem c10_cooldown_gate_behaviour (last : List (String × Int)) (key : String)
    (now cooldown : Int) :
    (dget last key = none →
       should_send_alert last key now cooldown = (true, dset last key now)) ∧
    (∀ t, dget last key = some t →
       ((should_send_alert last key now cooldown).1 = true ↔ now - t > cooldown) ∧
       (should_send_alert last key now cooldown).2 =
         (if now - t > cooldown then dset last key now else last) ∧
       (now - t = cooldown →
         should_send_alert last key now cooldown = (false, last))) := by
  constructor
  · intro h
    simp [should_send_alert, h]
  · intro t ht
    refine ⟨?_, ?_, ?_⟩
    · simp only [should_send_alert, ht]
      by_cases hc : now - t > cooldown <;> simp [hc]
    · simp only [should_send_alert, ht]
      by_cases hc : now - t > cooldown <;> simp [hc]
    · intro hb
      have hc : ¬ now - t > cooldown := by omega
      simp [should_send_alert, ht, hc]

/-- Closed form for the number of permitted notifications over n further
cycles, when the key's only entry was recorded g cycles (g times the
interval) before the current time, with s the least number of cycles whose
elapsed time strictly exceeds the cooldown. -/
theorem run_alert_cycles_aux (key : String) (I C s : Nat) (hs : 0 < s)
    (hchar : ∀ j : Nat, C < j * I ↔ s ≤ j) :
    ∀ (n g : Nat) (t0 : Int), 1 ≤ g → g ≤ s →
      run_alert_cycles key [(key, t0)] (t0 + ((g * I : Nat) : Int)) I C n
        = (n + g - 1) / s := by
  intro n
  induction n with
  | zero =>
    intro g t0 hg1 hgs
    simp only [run_alert_cycles]
    exact (Nat.div_eq_of_lt (by omega)).symm
  | succ n ih =>
    intro g t0 hg1 hgs
    have hget : dget [(key, t0)] key = some t0 := by simp [dget]
    have hsub : t0 + ((g * I : Nat) : Int) - t0 = ((g * I : Nat) : Int) := by ring
    by_cases hsend : C < g * I
    · have hgs' : g = s := le_antisymm hgs ((hchar g).mp hsend)
      have hcond : t0 + ((g * I : Nat) : Int) - t0 > (C : Int) := by
        rw [hsub]; exact_mod_cast hsend
      have h1 := ih 1 (t0 + ((g * I : Nat) : Int)) le_rfl hs
      rw [Nat.one_mul, Nat.add_sub_cancel] at h1
      have hsend' : (C : Int) < (g : Int) * (I : Int) := by exact_mod_cast hsend
      have step : run_alert_cycles key [(key, t0)] (t0 + ((g * I : Nat) : Int)) I C (n + 1)
          = 1 + run_alert_cycles key [(key, t0 + ((g * I : Nat) : Int))]
              (t0 + ((g * I : Nat) : Int) + (I : Int)) I C n := by
        simp [run_alert_cycles, should_send_alert, hget, hcond, hsend', dset]
      rw [step, h1, hgs']
      rw [show n + 1 + s - 1 = n + s by omega, Nat.add_div_right _ hs]
      omega
    · have hglt : g < s := by
        by_contra hc
        exact hsend ((hchar g).mpr (by omega))
      have hcond : ¬ t0 + ((g * I : Nat) : Int) - t0 > (C : Int) := by
        rw [hsub]
        intro hc
        exact hsend (by exact_mod_cast hc)
      have h2 := ih (g + 1) t0 (by omega) (by omega)
      rw [show n + (g + 1) - 1 = n + 1 + g - 1 by omega] at h2
      have htime : t0 + ((g * I : Nat) : Int) + (I : Int)
          = t0 + (((g + 1) * I : Nat) : Int) := by push_cast; ring
      have hsend' : ¬ (C : Int) < (g : Int) * (I : Int) := by
        intro hc
        exact hsend (by exact_mod_cast hc)
      have step : run_alert_cycles key [(key, t0)] (t0 + ((g * I : Nat) : Int)) I C (n + 1)
          = run_alert_cycles key [(key, t0)]
              (t0 + ((g * I : Nat) : Int) + (I : Int)) I C n := by
        simp [run_alert_cycles, should_send_alert, hget, hcond, hsend']
      rw [step, htime, h2]

/-- The number of cycles after which the strict cooldown comparison first
permits a repeat: floor(C / I) + 1. -/
theorem cooldown_cycle_char (I C : Nat) (hI : 0 < I) :
    ∀ j : Nat, C < j * I ↔ C / I + 1 ≤ j := by
  intro j
  rw [Nat.succ_le_iff]
  exact (Nat.div_lt_iff_lt_mul hI).symm

/-- Claim C3, amended: for a condition evaluated true on N consecutive cycles
with interval I and cooldown C, starting with no record for the key, the
cooldown gate permits exactly ceil(N / (floor(C / I) + 1)) notifications
(not ceil((N * I) / C) as claimed). -/
theorem c3_amended_cooldown_notification_count (key : String) (t0 : Int)
    (I C N : Nat) (hI : 0 < I) (_hIC : I < C) :
    run_alert_cycles key [] t0 I C N = (N + C / I) / (C / I + 1) := by
  have hs : 0 < C / I + 1 := Nat.succ_pos _
  cases N with
  | zero =>
    simp only [run_alert_cycles]
    exact (Nat.div_eq_of_lt (by omega)).symm
  | succ n =>
    have hget : dget ([] : List (String × Int)) key = none := rfl
    have h1 := run_alert_cycles_aux key I C (C / I + 1) hs (cooldown_cycle_char I C hI)
      n 1 t0 le_rfl hs
    rw [Nat.one_mul, Nat.add_sub_cancel] at h1
    have step : run_alert_cycles key [] t0 I C (n + 1)
        = 1 + run_alert_cycles key [(key, t0)] (t0 + (I : Int)) I C n := by
      simp [run_alert_cycles, should_send_alert, hget, dset]
    rw [step, h1]
    rw [show n + 1 + C / I = n + (C / I + 1) by omega, Nat.add_div_right _ hs]
    omega

/-- Claim C3 as stated is false: with interval 1, cooldown 2 and 3 cycles
(I < C), the gate permits one notification while ceil((3 * 1) / 2) = 2. -/
theorem c3_counterexample_three_cycles :
    run_alert_cycles ("x") [] 0 1 2 3 = 1 ∧ (3 * 1 + 2 - 1) / 2 = 2 := by
  constructor <;> rfl

/-- Witness for the amended C3 at I = 15, C = 300, N = 22: two notifications. -/
theorem c3_amended_witness :
    run_alert_cycles ("x") [] 0 15 300 22 = 2 := by
  have h := c3_amended_cooldown_notification_count ("x") 0 15 300 22
    (by decide) (by decide)
  simpa using h

/-- Claim C1 concerns a code bug: reload_configuration calls
load_configuration, which parses the new configuration into target_queues,
core_queues, support_queues and queue_thresholds before validating it, so
after a validation failure the caught error leaves the invalid
configuration's parsed values active instead of the previous ones. This
theorem evaluates the embedding at a failing input: stA holds the valid
configuration for queue a; reloading cfgBad (queue b, category present,
thresholds key missing) fails validation yet replaces every working
variable with the parse of cfgBad, and sends no notification. -/
theorem c1_failed_reload_leaves_new_queues_active :
    (validate_configuration cfgBad
       = Except.error ("Configuration validation failed")) ∧
    reload_configuration stA (some cfgBad)
      = ({ stA with
            config := cfgBad
            target_queues := [("b")]
            core_queues := [("b")]
            support_queues := []
            queue_thresholds := [(("b"), emptyThresholds)] }, []) ∧
    stA.target_queues = [("a")] ∧ stA.core_queues = [("a")] := by
  refine ⟨rfl, ?_, rfl, rfl⟩
  rfl

/-- Claim C2: for a queue with an unresolved tracked alert record, the
recovery check succeeds exactly when messages_ready is below three tenths of
the high_backlog threshold, consumers are present and messages_ready is
below 50; on success it sends exactly one resolution notification carrying
the elapsed time since the record was created, marks the record resolved,
and no further resolution notification is sent for that record (until a
fresh alert re-arms it); on failure nothing changes and nothing is sent. -/
theorem c2_recovery_check (st : MState) (q : String) (qd : QueueData)
    (now : Int) (rec : AlertRecord)
    (hrec : dget st.active_alerts q = some rec)
    (hunres : rec.resolved = false) :
    ((check_recovery st q qd now).1 = true ↔
      (10 * qd.messages_ready < 3 * get_queue_threshold st q ("high_backlog") 1000 ∧
       qd.consumers > 0 ∧ qd.messages_ready < 50)) ∧
    ((check_recovery st q qd now).1 = true →
       check_recovery st q qd now =
         (true,
          { st with
            active_alerts := dset st.active_alerts q { rec with resolved := true } },
          [(q, now - rec.timestamp, rec.type)]) ∧
       (∀ (qd' : QueueData) (now' : Int),
          check_recovery
            { st with
              active_alerts := dset st.active_alerts q { rec with resolved := true } }
            q qd' now' =
          (false,
           { st with
             active_alerts := dset st.active_alerts q { rec with resolved := true } },
           []))) ∧
    ((check_recovery st q qd now).1 = false →
       check_recovery st q qd now = (false, st, [])) := by
  by_cases hrecov :
      10 * qd.messages_ready < 3 * get_queue_threshold st q ("high_backlog") 1000 ∧
      qd.consumers > 0 ∧ qd.messages_ready < 50
  · obtain ⟨h1, h2, h3⟩ := hrecov
    have heq : check_recovery st q qd now =
        (true,
         { st with
           active_alerts := dset st.active_alerts q { rec with resolved := true } },
         [(q, now - rec.timestamp, rec.type)]) := by
      simp [check_recovery, hrec, hunres, h1, h2, h3]
    refine ⟨?_, ?_, ?_⟩
    · rw [heq]
      simp [h1, h2, h3]
    · intro _
      refine ⟨heq, ?_⟩
      intro qd' now'
      simp [check_recovery, dget_dset_self]
    · intro hfalse
      rw [heq] at hfalse
      simp at hfalse
  · have heq : check_recovery st q qd now = (false, st, []) := by
      rw [not_and_or, not_and_or] at hrecov
      rcases hrecov with h | h | h <;> simp [check_recovery, hrec, hunres, h]
    refine ⟨?_, ?_, ?_⟩
    · rw [heq]
      constructor
      · intro hc
        simp at hc
      · intro hc
        exact absurd hc (by rw [not_and_or, not_and_or] at *; tauto)
    · intro htrue
      rw [heq] at htrue
      simp at htrue
    · intro _
      exact heq

/-- Witness for C2: queue a of stRec has the unresolved record recA; at
snapshot (ready 10, consumers 2) the recovery check fires, resolves the
record and sends one notification with the elapsed time 300. -/
theorem c2_recovery_witness :
    check_recovery stRec ("a") { messages_ready := 10, consumers := 2 } 400 =
      (true,
       { stRec with
         active_alerts := dset stRec.active_alerts ("a") { recA with resolved := true } },
       [(("a"), 400 - recA.timestamp, recA.type)]) := by
  have h := c2_recovery_check stRec ("a") { messages_ready := 10, consumers := 2 }
    400 recA rfl rfl
  have ht : (check_recovery stRec ("a") { messages_ready := 10, consumers := 2 } 400).1
      = true := (h.1).mpr (by decide)
  exact (h.2.1 ht).1

/-- The cooldown gate leaves other keys' recorded times unchanged. -/
theorem dget_should_send_alert_ne (m : List (String × Int)) (k k' : String)
    (now cd : Int) (h : k' ≠ k) :
    dget (should_send_alert m k now cd).2 k' = dget m k' := by
  unfold should_send_alert
  cases hm : dget m k with
  | none => simp [dget_dset_ne _ _ _ _ h]
  | some t => by_cases hc : now - t > cd <;> simp [hc, dget_dset_ne _ _ _ _ h]

/-- The system_failure notification appears in the output of
check_system_alerts exactly when total_core is positive, fewer than half the
CORE queues are healthy, and the cooldown gate for the shared key permits
it. -/
theorem check_system_alerts_failure_mem (st : MState) (now total_backlog : Int)
    (core_healthy total_core : Nat) :
    ((("critical_system_failure"), ("system_failure")) ∈
        (check_system_alerts st now total_backlog core_healthy total_core).2 ↔
      (0 < total_core ∧ 2 * core_healthy < total_core ∧
       (should_send_alert st.last_alert_time ("critical_system_failure") now
          st.alert_cooldown).1 = true)) := by
  have hne : ("critical_system_failure" : String) ≠ ("system_backlog") := by decide
  have hgate : (should_send_alert
      (should_send_alert st.last_alert_time ("system_backlog") now st.alert_cooldown).2
      ("critical_system_failure") now st.alert_cooldown).1
      = (should_send_alert st.last_alert_time ("critical_system_failure") now
          st.alert_cooldown).1 :=
    should_send_alert_congr _ _ _ _ _ (dget_should_send_alert_ne _ _ _ _ _ hne)
  by_cases hb : total_backlog > 10000 <;>
    by_cases hf : 0 < total_core ∧ 2 * core_healthy < total_core <;>
      simp [check_system_alerts, hb, hf, hgate] <;> tauto

/-- Claim C4 as stated is false on the HEALTHY characterisation: a CORE queue
with no consumers and no ready messages is classified HEALTHY by the code,
although the claim's predicate (consumers > 0 and ready at most threshold)
does not hold for it, so the claimed system_failure condition (fraction of
claim-HEALTHY CORE queues below one half) is true while the code sends no
system_failure notification even with the cooldown gate open. -/
theorem c4_counterexample_idle_queue_healthy :
    get_queue_status_icon stA snap00 ("a") = ("HEALTHY") ∧
    collect_core_healthy stA [(("a"), snap00)] = 1 ∧
    claim_core_healthy stA [(("a"), snap00)] = 0 ∧
    2 * claim_core_healthy stA [(("a"), snap00)] < 1 ∧
    (should_send_alert stA.last_alert_time ("critical_system_failure") 0
       stA.alert_cooldown).1 = true ∧
    (check_system_alerts stA 0 0 (collect_core_healthy stA [(("a"), snap00)]) 1).2
      = [] := by
  exact ⟨rfl, rfl, rfl, by decide, rfl, rfl⟩

/-- Claim C4, amended: the code counts a CORE queue as HEALTHY exactly when
its snapshot has messages_ready at most the high_backlog threshold and not
(consumers equal to zero with messages_ready positive); the system_failure
condition holds exactly when total_core is positive and strictly fewer than
half of the counted CORE queues are HEALTHY; the notification is keyed by
the single shared key critical_system_failure, never a per-queue key. -/
theorem c4_amended_system_failure (st : MState) (qd : QueueData) (q : String)
    (now total_backlog : Int) (core_healthy total_core : Nat) :
    (get_queue_status_icon st qd q = ("HEALTHY") ↔
      ((qd.consumers ≠ 0 ∨ qd.messages_ready ≤ 0) ∧
       qd.messages_ready ≤ get_queue_threshold st q ("high_backlog") 1000)) ∧
    ((("critical_system_failure"), ("system_failure")) ∈
        (check_system_alerts st now total_backlog core_healthy total_core).2 ↔
      (0 < total_core ∧ 2 * core_healthy < total_core ∧
       (should_send_alert st.last_alert_time ("critical_system_failure") now
          st.alert_cooldown).1 = true)) ∧
    (∀ k ty, (k, ty) ∈ (check_system_alerts st now total_backlog core_healthy total_core).2 →
       ty = ("system_failure") → k = ("critical_system_failure")) := by
  refine ⟨?_, check_system_alerts_failure_mem st now total_backlog core_healthy total_core, ?_⟩
  · unfold get_queue_status_icon
    dsimp only
    split_ifs with h1 h2 <;> simp_all
    omega
  · intro k ty hmem hty
    by_cases hb : total_backlog > 10000 <;>
      by_cases hf : 0 < total_core ∧ 2 * core_healthy < total_core <;>
        simp [check_system_alerts, hb, hf] at hmem <;>
          simp_all

/-- Claim C5 as stated is false: register_new_queues assigns the default
ThresholdSet unconditionally, so a queue name that already has configured
thresholds (here gps_queue_main with high_backlog 100) has them replaced by
the documented defaults on registration. -/
theorem c5_counterexample_register_overwrites :
    dget stDisc.queue_thresholds ("gps_queue_main") = some tdA ∧
    dget (register_new_queues stDisc [("gps_queue_main")]).queue_thresholds
        ("gps_queue_main")
      = some (default_discovered_thresholds ("CORE")) ∧
    tdA ≠ default_discovered_thresholds ("CORE") := by
  refine ⟨rfl, by decide, by decide⟩

/-- Claim C5, amended: registering a newly seen queue name always assigns it
the default ThresholdSet for its pattern category (high_backlog 1000,
critical_lag_seconds 60, no_consumers_alert iff CORE), overwriting any
thresholds already configured for that name; other names keep their
thresholds, and only the target_queues list is guarded against duplicates. -/
theorem c5_amended_register_defaults (st : MState) (q : String) :
    (dget (register_new_queues st [q]).queue_thresholds q
       = some (default_discovered_thresholds (categorize_queue_by_pattern q))) ∧
    (∀ q', q' ≠ q →
       dget (register_new_queues st [q]).queue_thresholds q'
         = dget st.queue_thresholds q') ∧
    ((register_new_queues st [q]).target_queues
       = if st.target_queues.contains q then st.target_queues
         else st.target_queues ++ [q]) := by
  have hrq : register_new_queues st [q] = register_one st q := rfl
  rw [hrq]
  unfold register_one
  dsimp only
  refine ⟨?_, ?_, ?_⟩
  · split_ifs <;> simp [dget_dset_self]
  · intro q' hq'
    split_ifs <;> simp [dget_dset_ne _ _ _ _ hq']
  · split_ifs <;> simp_all

/-- Claim C6: for one evaluation of one queue snapshot, the stalled_queue and
no_consumers alerts can never both fire, because stalled requires zero ready
messages and no_consumers requires a positive count. -/
theorem c6_stalled_no_consumers_exclusive (st : MState) (q : String)
    (qd : QueueData) (now : Int) :
    (((check_queue_alerts st q qd now).2.1.contains ("no_consumers")) &&
     ((check_queue_alerts st q qd now).2.1.contains ("stalled_queue"))) = false := by
  unfold check_queue_alerts
  dsimp only
  split_ifs <;> simp_all

/-- Claim C7: with queue discovery disabled, discover_and_monitor_queues
returns exactly the configured target queues, mutates nothing and sends no
notification, whatever the live queue universe looks like. -/
theorem c7_discovery_disabled_identity (st : MState) (server : Option (List String))
    (h : st.queue_discovery_enabled = false) :
    discover_and_monitor_queues st server = (st.target_queues, st, []) := by
  simp [discover_and_monitor_queues, h]

/-- Witness for C7 at the concrete state stA (discovery disabled) against a
live universe containing an unmonitored pattern-matching queue. -/
theorem c7_discovery_disabled_witness :
    discover_and_monitor_queues stA (some [("gps_queue_extra")])
      = (stA.target_queues, stA, []) :=
  c7_discovery_disabled_identity stA (some [("gps_queue_extra")]) rfl

/-- Claim C8: the shutdown notification is idempotent: over any number of
invocations of send_shutdown_notification at most one notification is sent
(none if the flag was already set), and every call after the first leaves
the state unchanged and sends nothing. -/
theorem c8_shutdown_notification_idempotent (st : MState) (n : Nat) :
    ((repeat_shutdown st n).2 = if st.shutdown_notification_sent then 0 else min n 1) ∧
    (send_shutdown_notification ((send_shutdown_notification st).1)
       = (((send_shutdown_notification st).1), [])) ∧
    (1 ≤ n → (repeat_shutdown st n).1 = (send_shutdown_notification st).1) := by
  have hstable : ∀ (s : MState), s.shutdown_notification_sent = true →
      ∀ m, repeat_shutdown s m = (s, 0) := by
    intro s hs m
    induction m with
    | zero => rfl
    | succ m ihm => simp [repeat_shutdown, send_shutdown_notification, hs, ihm]
  by_cases hsent : st.shutdown_notification_sent
  · refine ⟨?_, ?_, ?_⟩
    · rw [hstable st hsent n]
      simp [hsent]
    · simp [send_shutdown_notification, hsent]
    · intro _
      rw [hstable st hsent n]
      simp [send_shutdown_notification, hsent]
  · have hsent' : st.shutdown_notification_sent = false := by
      simpa using hsent
    cases n with
    | zero =>
      refine ⟨by simp [repeat_shutdown, hsent'], ?_, by omega⟩
      simp [send_shutdown_notification, hsent']
    | succ m =>
      have hflip : (send_shutdown_notification st).1
          = { st with shutdown_notification_sent := true } := by
        simp [send_shutdown_notification, hsent']
      refine ⟨?_, ?_, ?_⟩
      · simp only [repeat_shutdown]
        rw [hflip, hstable _ rfl m]
        simp [send_shutdown_notification, hsent']
      · rw [hflip]
        simp [send_shutdown_notification]
      · intro _
        simp only [repeat_shutdown]
        rw [hflip, hstable _ rfl m]

/-- Claim C9: the recovery tracker keys records by queue name alone:
track_alert for any alert kind overwrites the queue's single record with a
fresh unresolved one, leaves other queues' records alone, and a recovery
check sends at most one notification per queue. -/
theorem c9_tracker_keyed_by_queue_name (st : MState) (q ty1 ty2 : String)
    (t1 t2 now : Int) (qd : QueueData) :
    (dget (track_alert st q ty1 t1).active_alerts q
       = some { type := ty1, timestamp := t1, resolved := false }) ∧
    (track_alert (track_alert st q ty1 t1) q ty2 t2 = track_alert st q ty2 t2) ∧
    (∀ q', q' ≠ q →
       dget (track_alert st q ty1 t1).active_alerts q' = dget st.active_alerts q') ∧
    ((check_recovery st q qd now).2.2.length ≤ 1) := by
  refine ⟨?_, ?_, ?_, ?_⟩
  · simp [track_alert, dget_dset_self]
  · simp [track_alert, dset_dset]
  · intro q' hq'
    simp [track_alert, dget_dset_ne _ _ _ _ hq']
  · unfold check_recovery
    cases dget st.active_alerts q with
    | none => simp
    | some rec =>
      by_cases hres : rec.resolved <;> dsimp only <;> split_ifs <;> simp_all
